import Mathlib

/-!
Verification of the request validation & normalization layer of the
RDS MySQL MCP server (`mcp_server_rds_mysql/server.py`).

Each operation handler is embedded as a Lean function from its (typed)
arguments to `Except String Payload`, where `Except.error` models a
`ValueError` raised before the resource-client call and `Except.ok p`
models "validated and forwarded with request payload `p`".  Python
`None` defaults become `Option` arguments (`none` = the argument was
left unset); Python dicts become insertion-ordered association lists.
-/

namespace RdsMysql

/-- A payload value: the shapes of values that occur in the request
dictionaries the handlers build (strings, ints, booleans, lists, and
nested dictionaries). -/
inductive Val where
  | vStr (s : String)
  | vInt (n : Int)
  | vBool (b : Bool)
  | vList (l : List Val)
  | vDict (d : List (String × Val))

/-- A request payload: an insertion-ordered mapping from field name to
value, as built by each handler. -/
abbrev Payload := List (String × Val)

/-- The keys of a payload, in order. -/
def keys (p : Payload) : List String := p.map Prod.fst

/-- Embeds the Python dict comprehension that drops exactly the
`None`-valued entries of `req` (`if v is not None`), preserving
insertion order. -/
def mkReq : List (String × Option Val) → Payload
  | [] => []
  | (_, none) :: rest => mkReq rest
  | (k, some v) :: rest => (k, v) :: mkReq rest

/-- True when the handler forwarded a request (no ValueError). -/
def isOk {α : Type} : Except String α → Bool
  | .ok _ => true
  | .error _ => false

/-- True when the handler raised a ValueError before any remote call. -/
def isErr {α : Type} : Except String α → Bool
  | .ok _ => false
  | .error _ => true

/-- True when the call was forwarded and the given key is absent from
the forwarded payload. -/
def isOkWithoutKey (e : Except String Payload) (k : String) : Bool :=
  match e with
  | .ok p => !((keys p).contains k)
  | .error _ => false

/-- A list of strings as a payload value. -/
def strListVal (l : List String) : Val := .vList (l.map Val.vStr)

/-- A list of string-valued dictionaries as a payload value. -/
def dictListVal (l : List (List (String × String))) : Val :=
  .vList (l.map fun d => .vDict (d.map fun kv => (kv.1, Val.vStr kv.2)))

/-! ### Character classes and the two name patterns

The source validates names with `re.match` against
`^[^\d-][\w\-一-龥]\x7b0,127\x7d$` (instance / allow-list names) and
`^[a-zA-Z][a-zA-Z0-9_-]\x7b0,30\x7d[a-zA-Z0-9]$` (account names).  The
matchers below embed those patterns over the character repertoire the
development exercises (ASCII plus the CJK block named explicitly in the
pattern); Python's Unicode-aware `\w`/`\d` additionally cover other
scripts, none of which occurs in any input considered here.  `re.match`
anchors at the start, and a final `$` also matches just before one
trailing newline, which the matchers reproduce. -/

/-- ASCII decimal digit (`0`-`9`), the class `[0-9]` and the ASCII part
of `\d`. -/
def isAsciiDigitC (c : Char) : Bool := 48 ≤ c.toNat && c.toNat ≤ 57

/-- ASCII uppercase letter, the class `[A-Z]`. -/
def isAsciiUpperC (c : Char) : Bool := 65 ≤ c.toNat && c.toNat ≤ 90

/-- ASCII lowercase letter, the class `[a-z]`. -/
def isAsciiLowerC (c : Char) : Bool := 97 ≤ c.toNat && c.toNat ≤ 122

/-- ASCII letter, the class `[a-zA-Z]`. -/
def isAsciiAlphaC (c : Char) : Bool := isAsciiUpperC c || isAsciiLowerC c

/-- ASCII letter or digit, the class `[a-zA-Z0-9]`. -/
def isAlnumC (c : Char) : Bool := isAsciiAlphaC c || isAsciiDigitC c

/-- Word character (`\w`) on the ASCII range: letter, digit or
underscore. -/
def isAsciiWordC (c : Char) : Bool := isAlnumC c || c = '_'

/-- CJK ideograph, the explicit range `一-龥` of the name
pattern. -/
def isCjkC (c : Char) : Bool := 0x4e00 ≤ c.toNat && c.toNat ≤ 0x9fa5

/-- The body class `[\w\-一-龥]` of the instance / allow-list
name pattern: word characters, hyphen, or CJK ideographs. -/
def nameClass2 (c : Char) : Bool := isAsciiWordC c || c = '-' || isCjkC c

/-- Matches the remainder of the name pattern after its first
character: up to `budget` (127) characters of `nameClass2`, then the
end of the string, where the final `$` also accepts one trailing
newline. -/
def nameBodyMatch : Nat → List Char → Bool
  | _, [] => true
  | _, ['\n'] => true
  | 0, _ => false
  | Nat.succ n, c :: rest => nameClass2 c && nameBodyMatch n rest

/-- The full instance / allow-list name pattern
`^[^\d-][\w\-一-龥]\x7b0,127\x7d$`: a first character that is
neither a digit nor a hyphen (any other character is allowed by the
negated class), then at most 127 body-class characters to the end. -/
def nameMatch (s : String) : Bool :=
  match s.data with
  | [] => false
  | c :: rest => !(isAsciiDigitC c) && c != '-' && nameBodyMatch 127 rest

/-- The middle class `[a-zA-Z0-9_-]` of the account-name pattern. -/
def accountMidC (c : Char) : Bool := isAlnumC c || c = '_' || c = '-'

/-- Matches `[a-zA-Z0-9_-]\x7b0,30\x7d[a-zA-Z0-9]` against the given
characters: all but the last must be middle-class (at most `budget` of
them) and the last must be a letter or digit. -/
def accountMidLast : Nat → List Char → Bool
  | _, [c] => isAlnumC c
  | Nat.succ n, c :: rest => accountMidC c && accountMidLast n rest
  | _, _ => false

/-- The account-name pattern without the trailing-newline allowance:
a leading ASCII letter, then up to 30 middle-class characters, then a
final letter or digit. -/
def accountNameCore : List Char → Bool
  | c :: rest => isAsciiAlphaC c && accountMidLast 30 rest
  | [] => false

/-- The full account-name pattern
`^[a-zA-Z][a-zA-Z0-9_-]\x7b0,30\x7d[a-zA-Z0-9]$`, with `$` also
accepting one trailing newline. -/
def accountNameMatch (s : String) : Bool :=
  let l := s.data
  accountNameCore (if l.getLast? = some '\n' then l.dropLast else l)

/-! ### Password character classes (create_db_account) -/

/-- The fixed special-character set `[!@#$%^&*()_+\-=,.&?|/]` of the
password rule. -/
def pwSpecialChars : List Char :=
  ['!', '@', '#', '$', '%', '^', '&', '*', '(', ')', '_', '+', '-',
   '=', ',', '.', '?', '|', '/']

/-- Membership of a character in the password special-character set. -/
def isPwSpecialC (c : Char) : Bool := pwSpecialChars.contains c

/-- Membership of a character in any of the four password character
classes. -/
def inAnyPwClass (c : Char) : Bool :=
  isAsciiUpperC c || isAsciiLowerC c || isAsciiDigitC c || isPwSpecialC c

/-- How many of the four `re.search` conditions (uppercase present,
lowercase present, digit present, special character present) a password
satisfies: `sum(conditions)` in the source. -/
def pwClassCount (pw : String) : Nat :=
  (if pw.data.any isAsciiUpperC then 1 else 0) +
  (if pw.data.any isAsciiLowerC then 1 else 0) +
  (if pw.data.any isAsciiDigitC then 1 else 0) +
  (if pw.data.any isPwSpecialC then 1 else 0)

/-! ### Node fan-out (create_rds_mysql_instance) -/

/-- One node descriptor of the `node_info` list built for instance
creation. -/
structure Node where
  node_type : String
  zone_id : String
  node_spec : String
deriving DecidableEq

/-- Python `secondary_zone or primary_zone`: the first operand when it
is present and truthy (non-empty), otherwise the fallback. -/
def orElseStr (o : Option String) (d : String) : String :=
  match o with
  | some s => if s = "" then d else s
  | none => d

/-- The `node_info` list of `create_rds_mysql_instance`: one primary
descriptor, then one secondary descriptor per `range(secondary_count)`
iteration (zone `secondary_zone or primary_zone`), then one read-only
descriptor per `range(read_only_count)` iteration.  `range(n)` is empty
for `n <= 0`, which `Int.toNat` reproduces. -/
def buildNodeInfo (primary_zone primary_spec : String)
    (secondary_count : Int) (secondary_zone : Option String)
    (secondary_spec : String) (read_only_count : Int)
    (read_only_zone read_only_spec : String) : List Node :=
  [⟨"Primary", primary_zone, primary_spec⟩]
    ++ List.replicate secondary_count.toNat
        ⟨"Secondary", orElseStr secondary_zone primary_zone, secondary_spec⟩
    ++ List.replicate read_only_count.toNat
        ⟨"ReadOnly", read_only_zone, read_only_spec⟩

/-- A node descriptor as the dictionary the source appends to
`node_info`. -/
def nodeToVal (n : Node) : Val :=
  .vDict [("node_type", .vStr n.node_type), ("zone_id", .vStr n.zone_id),
          ("node_spec", .vStr n.node_spec)]

/-- The number of descriptors of a given role in a node list. -/
def countRole (nodes : List Node) (role : String) : Nat :=
  (nodes.filter (fun n => n.node_type == role)).length

/-- The zones of the secondary descriptors of a node list, in order. -/
def secondaryZones (nodes : List Node) : List String :=
  (nodes.filter (fun n => n.node_type == "Secondary")).map Node.zone_id

/-! ### Shared small checks -/

/-- Python `x is not None and len(x) > m` for an optional string. -/
def descOver (o : Option String) (m : Nat) : Bool :=
  match o with
  | some d => decide (m < d.length)
  | none => false

/-- The `TagFilters` element check of `describe_db_instances`: when the
argument is given, every element must be a dictionary containing the
key `Key`. -/
def tagFiltersOk : Option (List (List (String × String))) → Bool
  | none => true
  | some l => l.all (fun d => d.any (fun kv => kv.1 == "Key"))

/-! ### Operation handlers

Each `def` below embeds the Python handler of the same name: the
argument order is the Python signature order, `Option` arguments are
the parameters whose Python default is `None` (plus
`create_rds_mysql_instance`'s `instance_name`, typed `Optional[str]`),
an `Except.error` is a `ValueError` raised before the resource-client
call, and the `Except.ok` payload is the request dictionary passed to
the resource client. -/

/-- Handler `describe_db_instances` (list instances): builds the
request dictionary in source order, drops `None` entries, validates
each `tag_filters` element, and forwards.  It performs no check on
`page_number` or `page_size`. -/
def describe_db_instances (page_number page_size : Int)
    (instance_id instance_name instance_status db_engine_version
      create_time_start create_time_end zone_id charge_type
      instance_type node_spec : Option String)
    (tag_filters : Option (List (List (String × String))))
    (project_name private_network_ip_address : Option String)
    (kernel_version : Option (List String))
    (private_network_vpc_id storage_type : Option String) :
    Except String Payload :=
  let req := mkReq
    [("instance_id", instance_id.map .vStr),
     ("instance_name", instance_name.map .vStr),
     ("instance_status", instance_status.map .vStr),
     ("db_engine_version", db_engine_version.map .vStr),
     ("create_time_start", create_time_start.map .vStr),
     ("create_time_end", create_time_end.map .vStr),
     ("zone_id", zone_id.map .vStr),
     ("charge_type", charge_type.map .vStr),
     ("instance_type", instance_type.map .vStr),
     ("node_spec", node_spec.map .vStr),
     ("tag_filters", tag_filters.map dictListVal),
     ("project_name", project_name.map .vStr),
     ("page_number", some (.vInt page_number)),
     ("page_size", some (.vInt page_size)),
     ("private_network_ip_address", private_network_ip_address.map .vStr),
     ("kernel_version", kernel_version.map strListVal),
     ("private_network_vpc_id", private_network_vpc_id.map .vStr),
     ("storage_type", storage_type.map .vStr)]
  if tagFiltersOk tag_filters then .ok req
  else .error "TagFilters elements must be dictionaries containing Key"

/-- Handler `describe_db_instance_detail` (instance detail). -/
def describe_db_instance_detail (instance_id : String) :
    Except String Payload :=
  .ok [("instance_id", .vStr instance_id)]

/-- Handler `describe_db_instance_engine_minor_versions`. -/
def describe_db_instance_engine_minor_versions
    (instance_ids : List String) : Except String Payload :=
  .ok [("instance_ids", strListVal instance_ids)]

/-- Handler `describe_db_accounts` (list accounts): the optional name
filter is appended to the request only when it was given. -/
def describe_db_accounts (instance_id : String)
    (account_name : Option String) (page_number page_size : Int) :
    Except String Payload :=
  .ok ([("instance_id", .vStr instance_id),
        ("page_number", .vInt page_number),
        ("page_size", .vInt page_size)] ++
    match account_name with
    | some s => [("account_name", Val.vStr s)]
    | none => [])

/-- Handler `describe_databases` (list databases). -/
def describe_databases (instance_id : String) (db_name : Option String)
    (page_number page_size : Int) : Except String Payload :=
  .ok ([("instance_id", .vStr instance_id),
        ("page_number", .vInt page_number),
        ("page_size", .vInt page_size)] ++
    match db_name with
    | some s => [("db_name", Val.vStr s)]
    | none => [])

/-- Handler `describe_db_instance_parameters`. -/
def describe_db_instance_parameters (instance_id : String)
    (parameter_name node_id : Option String) : Except String Payload :=
  .ok (mkReq
    [("instance_id", some (.vStr instance_id)),
     ("parameter_name", parameter_name.map .vStr),
     ("node_id", node_id.map .vStr)])

/-- Handler `list_parameter_templates`: the request dictionary uses the
lowercase keys `limit` and `offset`, while the two range checks test
for the capitalized keys `Limit` and `Offset`, which are never present;
the capitalized-key lookups of the source sit behind those membership
tests and are therefore never evaluated. -/
def list_parameter_templates (template_category : Option String)
    (template_type : String)
    (template_type_version template_source : Option String)
    (limit offset : Int)
    (project_name template_name : Option String) :
    Except String Payload :=
  let req := mkReq
    [("template_category", template_category.map .vStr),
     ("template_type", some (.vStr template_type)),
     ("template_type_version", template_type_version.map .vStr),
     ("template_source", template_source.map .vStr),
     ("limit", some (.vInt limit)),
     ("offset", some (.vInt offset)),
     ("project_name", project_name.map .vStr),
     ("template_name", template_name.map .vStr)]
  if "Limit" ∈ keys req ∧ ¬(1 ≤ limit ∧ limit ≤ 100) then
    .error "Limit must be between 1 and 100"
  else if "Offset" ∈ keys req ∧ offset < 0 then
    .error "Offset must be nonnegative"
  else .ok req

/-- Handler `describe_parameter_template`: `template_id` must be
non-empty (Python truthiness on a string). -/
def describe_parameter_template (template_id : String)
    (project_name : Option String) : Except String Payload :=
  if template_id = "" then .error "template_id is required"
  else .ok (mkReq
    [("template_id", some (.vStr template_id)),
     ("project_name", project_name.map .vStr)])

/-- Handler `modify_db_instance_name` (rename instance): both
arguments required non-empty, and the new name must match the
instance-name pattern. -/
def modify_db_instance_name (instance_id instance_new_name : String) :
    Except String Payload :=
  if instance_id = "" then .error "instance_id is required"
  else if instance_new_name = "" then .error "instance_new_name is required"
  else if !(nameMatch instance_new_name) then
    .error "instance name does not match the naming rule"
  else .ok [("instance_id", .vStr instance_id),
            ("instance_new_name", .vStr instance_new_name)]

/-- Handler `modify_db_account_description`: description limited to
256 characters when given; a given empty description is kept in the
payload (it clears the stored one). -/
def modify_db_account_description (instance_id account_name : String)
    (host : String) (account_desc : Option String) :
    Except String Payload :=
  if instance_id = "" then .error "instance_id is required"
  else if account_name = "" then .error "account_name is required"
  else if descOver account_desc 256 then
    .error "account_desc must be at most 256 characters"
  else .ok (mkReq
    [("instance_id", some (.vStr instance_id)),
     ("account_name", some (.vStr account_name)),
     ("host", some (.vStr host)),
     ("account_desc", account_desc.map .vStr)])

/-- Handler `create_rds_mysql_instance` (create instance): expands the
per-role counts into `node_info`, performs no validation, and adds
`instance_name` to the payload only when it is truthy (present and
non-empty). -/
def create_rds_mysql_instance (vpc_id subnet_id : String)
    (instance_name : Option String)
    (db_engine_version primary_zone primary_spec : String)
    (secondary_count : Int) (secondary_zone : Option String)
    (secondary_spec : String) (read_only_count : Int)
    (read_only_zone read_only_spec : String) (storage_space : Int)
    (storage_type charge_type : String) : Except String Payload :=
  let node_info := buildNodeInfo primary_zone primary_spec
    secondary_count secondary_zone secondary_spec read_only_count
    read_only_zone read_only_spec
  let base : Payload :=
    [("db_engine_version", .vStr db_engine_version),
     ("node_info", .vList (node_info.map nodeToVal)),
     ("storage_type", .vStr storage_type),
     ("storage_space", .vInt storage_space),
     ("vpc_id", .vStr vpc_id),
     ("subnet_id", .vStr subnet_id),
     ("charge_info", .vDict [("charge_type", .vStr charge_type)])]
  .ok (match instance_name with
    | some s => if s = "" then base else base ++ [("instance_name", Val.vStr s)]
    | none => base)

/-- Handler `create_database`: required ids, fixed character-set
vocabulary, description at most 256 characters. -/
def create_database (instance_id db_name character_set_name : String)
    (database_privileges : Option (List (List (String × String))))
    (db_desc : Option String) : Except String Payload :=
  if instance_id = "" then .error "instance_id is required"
  else if db_name = "" then .error "db_name is required"
  else if ¬(character_set_name = "utf8" ∨ character_set_name = "utf8mb4" ∨
      character_set_name = "latin1" ∨ character_set_name = "ascii") then
    .error "invalid character set"
  else if descOver db_desc 256 then
    .error "db_desc must be at most 256 characters"
  else .ok (mkReq
    [("instance_id", some (.vStr instance_id)),
     ("db_name", some (.vStr db_name)),
     ("character_set_name", some (.vStr character_set_name)),
     ("database_privileges", database_privileges.map dictListVal),
     ("db_desc", db_desc.map .vStr)])

/-- Python `x is not None and len(x) > 10` for the security-group id
list of `create_allow_list`. -/
def sgTooMany (o : Option (List String)) : Bool :=
  match o with
  | some l => decide (10 < l.length)
  | none => false

/-- Handler `create_allow_list`: name required and matching the name
pattern, description at most 200 characters, fixed type and category
vocabularies, `allow_list` exclusive with `user_allow_list`,
`security_group_ids` exclusive with `security_group_bind_infos`, and at
most 10 security-group ids. -/
def create_allow_list (allow_list_name : String)
    (allow_list_desc : Option String) (allow_list_type : String)
    (allow_list : Option String)
    (security_group_ids : Option (List String))
    (security_group_bind_infos : Option (List Val))
    (allow_list_category : String)
    (user_allow_list project_name : Option String) :
    Except String Payload :=
  if allow_list_name = "" then .error "allow_list_name is required"
  else if !(nameMatch allow_list_name) then
    .error "allow list name does not match the naming rule"
  else if descOver allow_list_desc 200 then
    .error "allow_list_desc must be at most 200 characters"
  else if ¬(allow_list_type = "IPv4") then
    .error "invalid allow_list_type"
  else if ¬(allow_list_category = "Ordinary" ∨
      allow_list_category = "Default") then
    .error "invalid allow_list_category"
  else if allow_list.isSome ∧ user_allow_list.isSome then
    .error "allow_list and user_allow_list cannot both be used"
  else if security_group_ids.isSome ∧ security_group_bind_infos.isSome then
    .error "security_group_ids and security_group_bind_infos cannot both be used"
  else if sgTooMany security_group_ids then
    .error "security_group_ids can contain at most 10 ids"
  else .ok (mkReq
    [("allow_list_name", some (.vStr allow_list_name)),
     ("allow_list_desc", allow_list_desc.map .vStr),
     ("allow_list_type", some (.vStr allow_list_type)),
     ("allow_list", allow_list.map .vStr),
     ("security_group_ids", security_group_ids.map strListVal),
     ("security_group_bind_infos", security_group_bind_infos.map .vList),
     ("allow_list_category", some (.vStr allow_list_category)),
     ("user_allow_list", user_allow_list.map .vStr),
     ("project_name", project_name.map .vStr)])

/-- Handler `associate_allow_list` (bind allow-list): both lists
non-empty, at most 200 instance ids, at most 100 allow-list ids, and
not both lists longer than one. -/
def associate_allow_list (instance_ids allow_list_ids : List String) :
    Except String Payload :=
  if instance_ids.isEmpty then
    .error "instance_ids is required and cannot be empty"
  else if allow_list_ids.isEmpty then
    .error "allow_list_ids is required and cannot be empty"
  else if 200 < instance_ids.length then
    .error "at most 200 instance ids per call"
  else if 100 < allow_list_ids.length then
    .error "at most 100 allow list ids per call"
  else if 1 < instance_ids.length ∧ 1 < allow_list_ids.length then
    .error "many-to-many binding is not supported"
  else .ok [("instance_ids", strListVal instance_ids),
            ("allow_list_ids", strListVal allow_list_ids)]

/-- Handler `create_db_account` (create account): required fields,
account-name pattern, password length 8-32 with at least 3 of the 4
character classes, fixed account-type vocabulary, wildcard host forced
for Super accounts, description at most 256 characters. -/
def create_db_account
    (instance_id account_name account_password account_type : String)
    (account_desc : Option String) (host : String)
    (account_privileges : Option (List (List (String × String))))
    (dry_run : Bool) (table_column_privileges : Option (List Val)) :
    Except String Payload :=
  if instance_id = "" then .error "instance_id is required"
  else if account_name = "" then .error "account_name is required"
  else if account_password = "" then .error "account_password is required"
  else if account_type = "" then .error "account_type is required"
  else if !(accountNameMatch account_name) then
    .error "account name does not match the naming rule"
  else if ¬(8 ≤ account_password.length ∧ account_password.length ≤ 32) then
    .error "password must be 8 to 32 characters"
  else if pwClassCount account_password < 3 then
    .error "password must contain at least three character classes"
  else if ¬(account_type = "Super" ∨ account_type = "Normal") then
    .error "invalid account_type"
  else if account_type = "Super" ∧ ¬(host = "%") then
    .error "Super accounts must use the wildcard host"
  else if descOver account_desc 256 then
    .error "account_desc must be at most 256 characters"
  else .ok (mkReq
    [("instance_id", some (.vStr instance_id)),
     ("account_name", some (.vStr account_name)),
     ("account_desc", account_desc.map .vStr),
     ("host", some (.vStr host)),
     ("account_password", some (.vStr account_password)),
     ("account_type", some (.vStr account_type)),
     ("account_privileges", account_privileges.map dictListVal),
     ("dry_run", some (.vBool dry_run)),
     ("table_column_privileges", table_column_privileges.map .vList)])

/-- The positional `VpcIds.i` entries of `describe_vpcs`, 1-based and
in input order, appended after the base dictionary keys. -/
def vpcIdEntries : Option (List String) → Payload
  | none => []
  | some l => l.enum.map (fun iv => ("VpcIds." ++ toString (iv.1 + 1), Val.vStr iv.2))

/-- Handler `describe_vpcs` (describe virtual networks): at most 100
vpc ids, at most 10 tag keys with at most 3 values each, page size and
max results in `[1,100]` when given.  The validated `tag_filters`
argument is never placed in the request dictionary. -/
def describe_vpcs (vpc_ids : Option (List String))
    (vpc_name project_name : Option String)
    (tag_filters : Option (List (String × List String)))
    (is_default : Option Bool) (vpc_owner_id : Option Int)
    (page_number page_size : Option Int) (next_token : Option String)
    (max_results : Option Int) : Except String Payload :=
  if (match vpc_ids with
      | some l => decide (100 < l.length)
      | none => false) then
    .error "at most 100 vpc ids per call"
  else if (match tag_filters with
      | some t => decide (10 < t.length)
      | none => false) then
    .error "at most 10 tag keys"
  else if (match tag_filters with
      | some t => t.any (fun kv => decide (3 < kv.2.length))
      | none => false) then
    .error "at most 3 values per tag key"
  else if (match page_size with
      | some ps => decide (ps < 1 ∨ 100 < ps)
      | none => false) then
    .error "PageSize must be between 1 and 100"
  else if (match max_results with
      | some mr => decide (mr < 1 ∨ 100 < mr)
      | none => false) then
    .error "MaxResults must be between 1 and 100"
  else .ok (mkReq
    [("Action", some (.vStr "DescribeVpcs")),
     ("Version", some (.vStr "2020-04-01")),
     ("VpcName", vpc_name.map .vStr),
     ("ProjectName", project_name.map .vStr),
     ("IsDefault", is_default.map .vBool),
     ("VpcOwnerId", vpc_owner_id.map .vInt),
     ("PageNumber", page_number.map .vInt),
     ("PageSize", page_size.map .vInt),
     ("NextToken", next_token.map .vStr),
     ("MaxResults", max_results.map .vInt)] ++ vpcIdEntries vpc_ids)

/-! ## Helper lemmas -/

theorem mkReq_mem (k : String) (v : Val) (l : List (String × Option Val)) :
    (k, v) ∈ mkReq l ↔ (k, some v) ∈ l := by
  induction l with
  | nil => simp [mkReq]
  | cons hd tl ih =>
    obtain ⟨k', ov⟩ := hd
    cases ov with
    | none => simp [mkReq, ih]
    | some w => simp [mkReq, ih]

theorem mem_keys_iff (k : String) (p : Payload) :
    k ∈ keys p ↔ ∃ v, (k, v) ∈ p := by
  simp only [keys, List.mem_map]
  constructor
  · rintro ⟨⟨a, b⟩, hm, rfl⟩
    exact ⟨b, hm⟩
  · rintro ⟨v, hv⟩
    exact ⟨(k, v), hv, rfl⟩

theorem mkReq_keys (k : String) (l : List (String × Option Val)) :
    k ∈ keys (mkReq l) ↔ ∃ v, (k, some v) ∈ l := by
  rw [mem_keys_iff]
  constructor
  · rintro ⟨v, hv⟩
    exact ⟨v, (mkReq_mem k v l).mp hv⟩
  · rintro ⟨v, hv⟩
    exact ⟨v, (mkReq_mem k v l).mpr hv⟩

theorem keys_append (a b : Payload) :
    keys (a ++ b) = keys a ++ keys b := by
  simp [keys]

theorem countRole_append (a b : List Node) (r : String) :
    countRole (a ++ b) r = countRole a r + countRole b r := by
  simp [countRole, List.filter_append]

theorem countRole_replicate (n : Nat) (x : Node) (r : String) :
    countRole (List.replicate n x) r =
      if x.node_type == r then n else 0 := by
  induction n with
  | zero => simp [countRole]
  | succ m ih =>
    by_cases h : x.node_type == r
    · simp only [countRole, List.replicate_succ, List.filter_cons, h,
        if_pos, List.length_cons] at ih ⊢
      simp_all [countRole]
    · simp only [countRole, List.replicate_succ, List.filter_cons] at ih ⊢
      simp_all [countRole]

theorem ite_error_ok {α : Type} {c : Prop} [Decidable c] {s : String}
    {t : Except String α} {p : α}
    (h : (if c then Except.error s else t) = .ok p) : t = .ok p := by
  split at h
  · exact absurd h (by simp)
  · exact h

/-! ## Claims -/

/-- C1: the claim states that `list_parameter_templates` rejects every
limit outside `[1,100]` and every negative offset before any remote
call.  The code does neither: its two checks test the capitalized keys
`Limit`/`Offset`, which never occur in the lowercase-keyed request, so
the handler forwards every limit/offset unchecked.  The first conjunct
shows no argument combination is ever rejected; the second evaluates
the handler at limit 0 and offset -1, both forwarded in the payload. -/
theorem claim_C1 :
    (∀ (tc ttv ts pjn tn : Option String) (tt : String)
        (limit offset : Int),
      isOk (list_parameter_templates tc tt ttv ts limit offset pjn tn) =
        true) ∧
    list_parameter_templates none "Mysql" none none 0 (-1) none none =
      .ok [("template_type", .vStr "Mysql"), ("limit", .vInt 0),
           ("offset", .vInt (-1))] := by
  constructor
  · intro tc ttv ts pjn tn tt limit offset
    have hL : ¬("Limit" ∈ keys (mkReq
        [("template_category", tc.map .vStr),
         ("template_type", some (.vStr tt)),
         ("template_type_version", ttv.map .vStr),
         ("template_source", ts.map .vStr),
         ("limit", some (.vInt limit)),
         ("offset", some (.vInt offset)),
         ("project_name", pjn.map .vStr),
         ("template_name", tn.map .vStr)])) := by
      rw [mkReq_keys]
      rintro ⟨v, hv⟩
      simp at hv
    have hO : ¬("Offset" ∈ keys (mkReq
        [("template_category", tc.map .vStr),
         ("template_type", some (.vStr tt)),
         ("template_type_version", ttv.map .vStr),
         ("template_source", ts.map .vStr),
         ("limit", some (.vInt limit)),
         ("offset", some (.vInt offset)),
         ("project_name", pjn.map .vStr),
         ("template_name", tn.map .vStr)])) := by
      rw [mkReq_keys]
      rintro ⟨v, hv⟩
      simp at hv
    simp [list_parameter_templates, isOk, hL, hO]
  · rfl

/-- C2: the claim states a name is accepted iff it starts with neither
a digit nor a hyphen, contains only letters, digits, underscore,
hyphen and CJK characters, and has length 1 to 128 — matching the
handlers' own documentation.  The code's pattern only constrains the
first character to be a non-digit non-hyphen, so the name consisting of
the single character `!` — outside every allowed class — is accepted
and forwarded by both the rename-instance and the create-allow-list
handler, contradicting the documented rule (`nameClass2` is the
pattern's own body class, and `!` fails it). -/
theorem claim_C2 :
    modify_db_instance_name "mysql-7648a2aaa843" "!" =
      .ok [("instance_id", .vStr "mysql-7648a2aaa843"),
           ("instance_new_name", .vStr "!")] ∧
    isOk (create_allow_list "!" none "IPv4" none none none "Ordinary"
      none none) = true ∧
    nameClass2 '!' = false ∧ isAsciiDigitC '!' = false ∧ '!' ≠ '-' := by
  refine ⟨by rfl, by rfl, by decide, by decide, by decide⟩

set_option maxRecDepth 10000 in
/-- C6: the bind-allow-list handler raises a validation error, without
calling the resource client, exactly when the instance-id list is
empty, the allow-list-id list is empty, more than 200 instance ids are
given, more than 100 allow-list ids are given, or both lists have more
than one element; in particular 201 instance ids are rejected, 200 with
one allow-list id are accepted, 3 instances with 2 allow-lists are
rejected, and 3 instances with 1 allow-list or 1 instance with 3
allow-lists are accepted. -/
theorem claim_C6 :
    (∀ (instance_ids allow_list_ids : List String),
      isErr (associate_allow_list instance_ids allow_list_ids) = true ↔
        (instance_ids = [] ∨ allow_list_ids = [] ∨
         200 < instance_ids.length ∨ 100 < allow_list_ids.length ∨
         (1 < instance_ids.length ∧ 1 < allow_list_ids.length))) ∧
    isErr (associate_allow_list (List.replicate 201 "i") ["a"]) = true ∧
    isOk (associate_allow_list (List.replicate 200 "i") ["a"]) = true ∧
    isErr (associate_allow_list ["i1", "i2", "i3"] ["a1", "a2"]) = true ∧
    isOk (associate_allow_list ["i1", "i2", "i3"] ["a1"]) = true ∧
    isOk (associate_allow_list ["i1"] ["a1", "a2", "a3"]) = true := by
  refine ⟨?_, by decide, by decide, by decide, by decide, by decide⟩
  intro instance_ids allow_list_ids
  simp only [associate_allow_list]
  repeat' split
  all_goals simp_all [isErr, List.isEmpty_iff]

/-- C7: the claim states the list-instances handler rejects any page
size above 1000 before the remote call.  The handler contains no page
size check at all: it forwards every page size, including 1001, and the
only validation it performs is on `tag_filters` elements. -/
theorem claim_C7 :
    (∀ (page_number page_size : Int),
      isOk (describe_db_instances page_number page_size none none none
        none none none none none none none none none none none none
        none) = true) ∧
    describe_db_instances 1 1001 none none none none none none none
      none none none none none none none none none =
      .ok [("page_number", .vInt 1), ("page_size", .vInt 1001)] := by
  exact ⟨fun _ _ => rfl, rfl⟩

/-- C5: for account creation (other arguments fixed valid), a password
of length 7 or 33 is rejected; one of length 8 or 32 satisfying the
class rule is accepted; one matching exactly 2 of the 4 character
classes is rejected; and one matching 3 classes within the length bound
is accepted. -/
theorem claim_C5 (pw : String) :
    (pw.length = 7 →
      isErr (create_db_account "i" "ab" pw "Normal" none "%" none false
        none) = true) ∧
    (pw.length = 33 →
      isErr (create_db_account "i" "ab" pw "Normal" none "%" none false
        none) = true) ∧
    (pw.length = 8 → 3 ≤ pwClassCount pw →
      isOk (create_db_account "i" "ab" pw "Normal" none "%" none false
        none) = true) ∧
    (pw.length = 32 → 3 ≤ pwClassCount pw →
      isOk (create_db_account "i" "ab" pw "Normal" none "%" none false
        none) = true) ∧
    (pwClassCount pw = 2 →
      isErr (create_db_account "i" "ab" pw "Normal" none "%" none false
        none) = true) ∧
    (pwClassCount pw = 3 → 8 ≤ pw.length → pw.length ≤ 32 →
      isOk (create_db_account "i" "ab" pw "Normal" none "%" none false
        none) = true) := by
  have hn : accountNameMatch "ab" = true := by decide
  refine ⟨?_, ?_, ?_, ?_, ?_, ?_⟩
  · intro h7
    have hne : pw ≠ "" := by
      intro he
      rw [he] at h7
      exact absurd h7 (by decide)
    simp [create_db_account, isErr, hn, hne, h7]
  · intro h33
    have hne : pw ≠ "" := by
      intro he
      rw [he] at h33
      exact absurd h33 (by decide)
    simp [create_db_account, isErr, hn, hne, h33]
  · intro h8 hc
    have hne : pw ≠ "" := by
      intro he
      rw [he] at h8
      exact absurd h8 (by decide)
    have hcc : ¬(pwClassCount pw < 3) := by omega
    simp [create_db_account, isOk, hn, hne, h8, hcc, descOver]
  · intro h32 hc
    have hne : pw ≠ "" := by
      intro he
      rw [he] at h32
      exact absurd h32 (by decide)
    have hcc : ¬(pwClassCount pw < 3) := by omega
    simp [create_db_account, isOk, hn, hne, h32, hcc, descOver]
  · intro h2
    have hne : pw ≠ "" := by
      intro he
      rw [he] at h2
      exact absurd h2 (by decide)
    by_cases hlen : 8 ≤ pw.length ∧ pw.length ≤ 32 <;>
      simp [create_db_account, isErr, hn, hne, h2, hlen]
  · intro h3 hlo hhi
    have hne : pw ≠ "" := by
      intro he
      rw [he] at hlo
      exact absurd hlo (by decide)
    have hlen : 8 ≤ pw.length ∧ pw.length ≤ 32 := ⟨hlo, hhi⟩
    have hcc : ¬(pwClassCount pw < 3) := by omega
    simp [create_db_account, isOk, hn, hne, hlen, hcc, descOver]

/-- C5 witness: the length-7 password `Aa1!xyz` is rejected and the
length-8 password `Aa1!xyzw` (4 classes) is accepted. -/
theorem claim_C5_witness :
    isErr (create_db_account "i" "ab" "Aa1!xyz" "Normal" none "%" none
      false none) = true ∧
    isOk (create_db_account "i" "ab" "Aa1!xyzw" "Normal" none "%" none
      false none) = true :=
  ⟨(claim_C5 "Aa1!xyz").1 (by decide),
   (claim_C5 "Aa1!xyzw").2.2.1 (by decide) (by decide)⟩

/-- C10: password validation inspects only the total length and the
number of satisfied character classes, so any password with length in
`[8,32]` and at least three classes passes — including passwords
containing characters (such as a space) outside all four documented
classes. -/
theorem claim_C10 (pw : String) (hlo : 8 ≤ pw.length)
    (hhi : pw.length ≤ 32) (hc : 3 ≤ pwClassCount pw) :
    isOk (create_db_account "i" "ab" pw "Normal" none "%" none false
      none) = true := by
  have hn : accountNameMatch "ab" = true := by decide
  have hne : pw ≠ "" := by
    intro he
    rw [he] at hlo
    exact absurd hlo (by decide)
  have hlen : 8 ≤ pw.length ∧ pw.length ≤ 32 := ⟨hlo, hhi⟩
  have hcc : ¬(pwClassCount pw < 3) := by omega
  simp [create_db_account, isOk, hn, hne, hlen, hcc, descOver]

/-- C10 witness: `Aa1 bcde` contains a space, which belongs to none of
the four password character classes, yet the account is created. -/
theorem claim_C10_witness :
    "Aa1 bcde".data.contains ' ' = true ∧ inAnyPwClass ' ' = false ∧
    isOk (create_db_account "i" "ab" "Aa1 bcde" "Normal" none "%" none
      false none) = true :=
  ⟨by decide, by decide,
   claim_C10 "Aa1 bcde" (by decide) (by decide) (by decide)⟩

/-- C4 counterexample: with the secondary zone explicitly set to the
empty string (a set value, distinct from unset) and secondary count 1,
the single secondary descriptor carries the primary zone
`cn-beijing-a`, not the explicitly set zone `""` — the expansion uses
Python `or`, which falls back on any falsy value, so the claim's
"explicit secondary zone when set" fails at this input. -/
theorem claim_C4_cex :
    secondaryZones (buildNodeInfo "cn-beijing-a" "rds.mysql.1c2g" 1
      (some "") "rds.mysql.1c2g" 0 "cn-beijing-a" "rds.mysql.1c2g") =
      ["cn-beijing-a"] ∧ ("cn-beijing-a" : String) ≠ "" := by
  exact ⟨by decide, by decide⟩

/-- C4 (amended): the node list of the create-instance handler contains
exactly one primary descriptor regardless of any count argument; with
secondary count `n >= 0` it contains exactly `n` secondary descriptors,
each carrying the explicit secondary zone when it is set and non-empty
and the primary zone when it is unset or empty; with read-replica count
0 it contains zero read-replica descriptors. -/
theorem claim_C4 (primary_zone primary_spec : String)
    (secondary_count : Int) (secondary_zone : Option String)
    (secondary_spec : String) (read_only_count : Int)
    (read_only_zone read_only_spec : String)
    (hsc : 0 ≤ secondary_count) :
    countRole (buildNodeInfo primary_zone primary_spec secondary_count
      secondary_zone secondary_spec read_only_count read_only_zone
      read_only_spec) "Primary" = 1 ∧
    (countRole (buildNodeInfo primary_zone primary_spec secondary_count
      secondary_zone secondary_spec read_only_count read_only_zone
      read_only_spec) "Secondary" : Int) = secondary_count ∧
    (∀ n ∈ buildNodeInfo primary_zone primary_spec secondary_count
        secondary_zone secondary_spec read_only_count read_only_zone
        read_only_spec, n.node_type = "Secondary" →
      ((secondary_zone = none ∨ secondary_zone = some "") →
        n.zone_id = primary_zone) ∧
      (∀ z, secondary_zone = some z → z ≠ "" → n.zone_id = z)) ∧
    (read_only_count = 0 →
      countRole (buildNodeInfo primary_zone primary_spec secondary_count
        secondary_zone secondary_spec read_only_count read_only_zone
        read_only_spec) "ReadOnly" = 0) := by
  refine ⟨?_, ?_, ?_, ?_⟩
  · simp [buildNodeInfo, countRole_append, countRole_replicate, countRole]
  · have h : countRole (buildNodeInfo primary_zone primary_spec
        secondary_count secondary_zone secondary_spec read_only_count
        read_only_zone read_only_spec) "Secondary" =
        secondary_count.toNat := by
      simp [buildNodeInfo, countRole_append, countRole_replicate,
        countRole]
    rw [h]
    exact Int.toNat_of_nonneg hsc
  · intro n hn hsec
    simp only [buildNodeInfo, List.mem_append, List.mem_singleton,
      List.mem_replicate] at hn
    rcases hn with ((rfl | ⟨-, rfl⟩) | ⟨-, rfl⟩)
    · simp at hsec
    · constructor
      · rintro (rfl | rfl) <;> simp [orElseStr]
      · rintro z rfl hz
        simp [orElseStr, hz]
    · simp at hsec
  · rintro rfl
    simp [buildNodeInfo, countRole_append, countRole_replicate, countRole]

/-- C4 witness: with secondary count 2 and no explicit secondary zone,
the node list has exactly one primary and two secondary descriptors,
both in the primary zone, and no read-replica descriptor. -/
theorem claim_C4_witness :
    countRole (buildNodeInfo "cn-beijing-a" "rds.mysql.1c2g" 2 none
      "rds.mysql.1c2g" 0 "cn-beijing-a" "rds.mysql.1c2g") "Primary" =
      1 ∧
    (countRole (buildNodeInfo "cn-beijing-a" "rds.mysql.1c2g" 2 none
      "rds.mysql.1c2g" 0 "cn-beijing-a" "rds.mysql.1c2g") "Secondary" :
      Int) = 2 ∧
    countRole (buildNodeInfo "cn-beijing-a" "rds.mysql.1c2g" 2 none
      "rds.mysql.1c2g" 0 "cn-beijing-a" "rds.mysql.1c2g") "ReadOnly" =
      0 := by
  have h := claim_C4 "cn-beijing-a" "rds.mysql.1c2g" 2 none
    "rds.mysql.1c2g" 0 "cn-beijing-a" "rds.mysql.1c2g" (by decide)
  exact ⟨h.1, h.2.1, h.2.2.2 rfl⟩

/-- C9: negative node counts are not rejected: for every secondary or
read-replica count at most 0 the expansion contributes zero descriptors
of that role, the node list still contains exactly one primary
descriptor, and the create-instance call always proceeds to the
resource client without any validation error. -/
theorem claim_C9 (vpc_id subnet_id : String)
    (instance_name : Option String)
    (db_engine_version primary_zone primary_spec : String)
    (secondary_count : Int) (secondary_zone : Option String)
    (secondary_spec : String) (read_only_count : Int)
    (read_only_zone read_only_spec : String) (storage_space : Int)
    (storage_type charge_type : String) :
    (secondary_count ≤ 0 →
      countRole (buildNodeInfo primary_zone primary_spec secondary_count
        secondary_zone secondary_spec read_only_count read_only_zone
        read_only_spec) "Secondary" = 0) ∧
    (read_only_count ≤ 0 →
      countRole (buildNodeInfo primary_zone primary_spec secondary_count
        secondary_zone secondary_spec read_only_count read_only_zone
        read_only_spec) "ReadOnly" = 0) ∧
    countRole (buildNodeInfo primary_zone primary_spec secondary_count
      secondary_zone secondary_spec read_only_count read_only_zone
      read_only_spec) "Primary" = 1 ∧
    isOk (create_rds_mysql_instance vpc_id subnet_id instance_name
      db_engine_version primary_zone primary_spec secondary_count
      secondary_zone secondary_spec read_only_count read_only_zone
      read_only_spec storage_space storage_type charge_type) = true := by
  refine ⟨?_, ?_, ?_, ?_⟩
  · intro h
    have : secondary_count.toNat = 0 := Int.toNat_of_nonpos h
    simp [buildNodeInfo, countRole_append, countRole_replicate,
      countRole, this]
  · intro h
    have : read_only_count.toNat = 0 := Int.toNat_of_nonpos h
    simp [buildNodeInfo, countRole_append, countRole_replicate,
      countRole, this]
  · simp [buildNodeInfo, countRole_append, countRole_replicate, countRole]
  · cases instance_name with
    | none => rfl
    | some s =>
      by_cases hs : s = "" <;>
        simp [create_rds_mysql_instance, isOk, hs]

/-- C9 witness: secondary count -1 and read-replica count -2 yield zero
secondary and read-replica descriptors, one primary descriptor, and a
forwarded call. -/
theorem claim_C9_witness :
    countRole (buildNodeInfo "cn-beijing-a" "sp" (-1) none "sp" (-2)
      "cn-beijing-a" "sp") "Secondary" = 0 ∧
    countRole (buildNodeInfo "cn-beijing-a" "sp" (-1) none "sp" (-2)
      "cn-beijing-a" "sp") "ReadOnly" = 0 ∧
    countRole (buildNodeInfo "cn-beijing-a" "sp" (-1) none "sp" (-2)
      "cn-beijing-a" "sp") "Primary" = 1 ∧
    isOk (create_rds_mysql_instance "vpc" "sn" none "MySQL_8_0"
      "cn-beijing-a" "sp" (-1) none "sp" (-2) "cn-beijing-a" "sp" 20
      "LocalSSD" "PostPaid") = true := by
  have h := claim_C9 "vpc" "sn" none "MySQL_8_0" "cn-beijing-a" "sp"
    (-1) none "sp" (-2) "cn-beijing-a" "sp" 20 "LocalSSD" "PostPaid"
  exact ⟨h.1 (by decide), h.2.1 (by decide), h.2.2.1, h.2.2.2⟩

/-- C8: in allow-list creation (name valid, other arguments at their
defaults, at most 10 security-group ids), a validation error is raised
exactly when both the address list and the user address list are
supplied, or both the security-group id list and the security-group
bind-info list are supplied; supplying exactly one member of each pair
(the other unset) passes these checks. -/
theorem claim_C8 (allow_list : Option String)
    (security_group_ids : Option (List String))
    (security_group_bind_infos : Option (List Val))
    (user_allow_list : Option String)
    (hsgi : ∀ l, security_group_ids = some l → l.length ≤ 10) :
    isErr (create_allow_list "abc" none "IPv4" allow_list
      security_group_ids security_group_bind_infos "Ordinary"
      user_allow_list none) = true ↔
    ((allow_list.isSome ∧ user_allow_list.isSome) ∨
     (security_group_ids.isSome ∧ security_group_bind_infos.isSome)) := by
  have hnm : nameMatch "abc" = true := by decide
  have hsg : sgTooMany security_group_ids = false := by
    cases security_group_ids with
    | none => rfl
    | some l =>
      have := hsgi l rfl
      simp [sgTooMany]
      omega
  by_cases hA : allow_list.isSome ∧ user_allow_list.isSome <;>
    by_cases hB : security_group_ids.isSome ∧
      security_group_bind_infos.isSome <;>
    simp [create_allow_list, isErr, hnm, descOver, hsg, hA, hB]

/-- C8 witness: supplying only the address list and only the
security-group id list (the other member of each pair unset) is not
rejected. -/
theorem claim_C8_witness :
    ¬(isErr (create_allow_list "abc" none "IPv4" (some "192.168.0.1")
      (some ["sg-1"]) none "Ordinary" none none) = true) := by
  intro hb
  have h := (claim_C8 (some "192.168.0.1") (some ["sg-1"]) none none
    (by rintro l hl; injection hl with hl; rw [← hl]; decide)).mp hb
  simp at h

/-! ### Per-handler payload-key lemmas (used by C3) -/

theorem c3_describe_db_instance_detail (instance_id : String)
    (p : Payload)
    (h : describe_db_instance_detail instance_id = .ok p) :
    keys p = ["instance_id"] := by
  injection h with h
  subst h
  rfl

theorem c3_describe_db_instance_engine_minor_versions
    (instance_ids : List String) (p : Payload)
    (h : describe_db_instance_engine_minor_versions instance_ids =
      .ok p) :
    keys p = ["instance_ids"] := by
  injection h with h
  subst h
  rfl

theorem c3_describe_db_accounts (instance_id : String)
    (account_name : Option String) (page_number page_size : Int)
    (p : Payload)
    (h : describe_db_accounts instance_id account_name page_number
      page_size = .ok p) :
    (account_name = none → "account_name" ∉ keys p) ∧
    (∀ s, account_name = some s → ("account_name", Val.vStr s) ∈ p) := by
  injection h with h
  subst h
  constructor
  · rintro rfl
    simp [keys]
  · rintro s rfl
    simp

theorem c3_describe_databases (instance_id : String)
    (db_name : Option String) (page_number page_size : Int)
    (p : Payload)
    (h : describe_databases instance_id db_name page_number page_size =
      .ok p) :
    (db_name = none → "db_name" ∉ keys p) ∧
    (∀ s, db_name = some s → ("db_name", Val.vStr s) ∈ p) := by
  injection h with h
  subst h
  constructor
  · rintro rfl
    simp [keys]
  · rintro s rfl
    simp

theorem c3_describe_db_instance_parameters (instance_id : String)
    (parameter_name node_id : Option String) (p : Payload)
    (h : describe_db_instance_parameters instance_id parameter_name
      node_id = .ok p) :
    (parameter_name = none → "parameter_name" ∉ keys p) ∧
    (∀ s, parameter_name = some s → ("parameter_name", Val.vStr s) ∈ p) ∧
    (node_id = none → "node_id" ∉ keys p) ∧
    (∀ s, node_id = some s → ("node_id", Val.vStr s) ∈ p) := by
  injection h with h
  subst h
  refine ⟨?_, ?_, ?_, ?_⟩
  · rintro rfl
    simp [mkReq_keys]
  · rintro s rfl
    simp [mkReq_mem]
  · rintro rfl
    simp [mkReq_keys]
  · rintro s rfl
    simp [mkReq_mem]

theorem c3_modify_db_instance_name (instance_id instance_new_name :
    String) (p : Payload)
    (h : modify_db_instance_name instance_id instance_new_name =
      .ok p) :
    keys p = ["instance_id", "instance_new_name"] := by
  simp only [modify_db_instance_name] at h
  repeat' split at h
  any_goals simp at h
  subst h
  rfl

theorem c3_associate_allow_list (instance_ids allow_list_ids :
    List String) (p : Payload)
    (h : associate_allow_list instance_ids allow_list_ids = .ok p) :
    keys p = ["instance_ids", "allow_list_ids"] := by
  simp only [associate_allow_list] at h
  repeat' split at h
  any_goals simp at h
  subst h
  rfl

theorem c3_list_parameter_templates (template_category : Option String)
    (template_type : String)
    (template_type_version template_source : Option String)
    (limit offset : Int) (project_name template_name : Option String)
    (p : Payload)
    (h : list_parameter_templates template_category template_type
      template_type_version template_source limit offset project_name
      template_name = .ok p) :
    (template_category = none → "template_category" ∉ keys p) ∧
    (∀ s, template_category = some s →
      ("template_category", Val.vStr s) ∈ p) ∧
    (template_type_version = none → "template_type_version" ∉ keys p) ∧
    (∀ s, template_type_version = some s →
      ("template_type_version", Val.vStr s) ∈ p) ∧
    (template_source = none → "template_source" ∉ keys p) ∧
    (∀ s, template_source = some s →
      ("template_source", Val.vStr s) ∈ p) ∧
    (project_name = none → "project_name" ∉ keys p) ∧
    (∀ s, project_name = some s → ("project_name", Val.vStr s) ∈ p) ∧
    (template_name = none → "template_name" ∉ keys p) ∧
    (∀ s, template_name = some s → ("template_name", Val.vStr s) ∈ p) := by
  simp only [list_parameter_templates] at h
  repeat' split at h
  any_goals simp at h
  subst h
  refine ⟨?_, ?_, ?_, ?_, ?_, ?_, ?_, ?_, ?_, ?_⟩
  all_goals
    first
    | (rintro rfl; simp [mkReq_keys])
    | (rintro s rfl; simp [mkReq_mem])

theorem c3_describe_parameter_template (template_id : String)
    (project_name : Option String) (p : Payload)
    (h : describe_parameter_template template_id project_name = .ok p) :
    (project_name = none → "project_name" ∉ keys p) ∧
    (∀ s, project_name = some s → ("project_name", Val.vStr s) ∈ p) := by
  simp only [describe_parameter_template] at h
  split at h
  · simp at h
  · simp only [Except.ok.injEq] at h
    subst h
    constructor
    · rintro rfl
      simp [mkReq_keys]
    · rintro s rfl
      simp [mkReq_mem]

theorem c3_modify_db_account_description (instance_id account_name :
    String) (host : String) (account_desc : Option String) (p : Payload)
    (h : modify_db_account_description instance_id account_name host
      account_desc = .ok p) :
    (account_desc = none → "account_desc" ∉ keys p) ∧
    (∀ s, account_desc = some s → ("account_desc", Val.vStr s) ∈ p) := by
  simp only [modify_db_account_description] at h
  repeat' split at h
  any_goals simp at h
  subst h
  constructor
  · rintro rfl
    simp [mkReq_keys]
  · rintro s rfl
    simp [mkReq_mem]

theorem c3_create_database (instance_id db_name character_set_name :
    String)
    (database_privileges : Option (List (List (String × String))))
    (db_desc : Option String) (p : Payload)
    (h : create_database instance_id db_name character_set_name
      database_privileges db_desc = .ok p) :
    (database_privileges = none → "database_privileges" ∉ keys p) ∧
    (db_desc = none → "db_desc" ∉ keys p) ∧
    (∀ s, db_desc = some s → ("db_desc", Val.vStr s) ∈ p) := by
  simp only [create_database] at h
  repeat' split at h
  any_goals simp at h
  subst h
  refine ⟨?_, ?_, ?_⟩
  · rintro rfl
    simp [mkReq_keys]
  · rintro rfl
    simp [mkReq_keys]
  · rintro s rfl
    simp [mkReq_mem]

theorem c3_describe_db_instances (page_number page_size : Int)
    (instance_id instance_name instance_status db_engine_version
      create_time_start create_time_end zone_id charge_type
      instance_type node_spec : Option String)
    (tag_filters : Option (List (List (String × String))))
    (project_name private_network_ip_address : Option String)
    (kernel_version : Option (List String))
    (private_network_vpc_id storage_type : Option String) (p : Payload)
    (h : describe_db_instances page_number page_size instance_id
      instance_name instance_status db_engine_version create_time_start
      create_time_end zone_id charge_type instance_type node_spec
      tag_filters project_name private_network_ip_address
      kernel_version private_network_vpc_id storage_type = .ok p) :
    (instance_id = none → "instance_id" ∉ keys p) ∧
    (∀ s, instance_id = some s → ("instance_id", Val.vStr s) ∈ p) ∧
    (instance_name = none → "instance_name" ∉ keys p) ∧
    (∀ s, instance_name = some s → ("instance_name", Val.vStr s) ∈ p) ∧
    (instance_status = none → "instance_status" ∉ keys p) ∧
    (∀ s, instance_status = some s →
      ("instance_status", Val.vStr s) ∈ p) ∧
    (db_engine_version = none → "db_engine_version" ∉ keys p) ∧
    (∀ s, db_engine_version = some s →
      ("db_engine_version", Val.vStr s) ∈ p) ∧
    (create_time_start = none → "create_time_start" ∉ keys p) ∧
    (∀ s, create_time_start = some s →
      ("create_time_start", Val.vStr s) ∈ p) ∧
    (create_time_end = none → "create_time_end" ∉ keys p) ∧
    (∀ s, create_time_end = some s →
      ("create_time_end", Val.vStr s) ∈ p) ∧
    (zone_id = none → "zone_id" ∉ keys p) ∧
    (∀ s, zone_id = some s → ("zone_id", Val.vStr s) ∈ p) ∧
    (charge_type = none → "charge_type" ∉ keys p) ∧
    (∀ s, charge_type = some s → ("charge_type", Val.vStr s) ∈ p) ∧
    (instance_type = none → "instance_type" ∉ keys p) ∧
    (∀ s, instance_type = some s → ("instance_type", Val.vStr s) ∈ p) ∧
    (node_spec = none → "node_spec" ∉ keys p) ∧
    (∀ s, node_spec = some s → ("node_spec", Val.vStr s) ∈ p) ∧
    (project_name = none → "project_name" ∉ keys p) ∧
    (∀ s, project_name = some s → ("project_name", Val.vStr s) ∈ p) ∧
    (private_network_ip_address = none →
      "private_network_ip_address" ∉ keys p) ∧
    (∀ s, private_network_ip_address = some s →
      ("private_network_ip_address", Val.vStr s) ∈ p) ∧
    (private_network_vpc_id = none →
      "private_network_vpc_id" ∉ keys p) ∧
    (∀ s, private_network_vpc_id = some s →
      ("private_network_vpc_id", Val.vStr s) ∈ p) ∧
    (storage_type = none → "storage_type" ∉ keys p) ∧
    (∀ s, storage_type = some s → ("storage_type", Val.vStr s) ∈ p) ∧
    (tag_filters = none → "tag_filters" ∉ keys p) ∧
    (kernel_version = none → "kernel_version" ∉ keys p) := by
  simp only [describe_db_instances] at h
  split at h
  · simp only [Except.ok.injEq] at h
    subst h
    refine ⟨?_, ?_, ?_, ?_, ?_, ?_, ?_, ?_, ?_, ?_, ?_, ?_, ?_, ?_, ?_,
      ?_, ?_, ?_, ?_, ?_, ?_, ?_, ?_, ?_, ?_, ?_, ?_, ?_, ?_, ?_⟩
    all_goals
      first
      | (rintro rfl; simp [mkReq_keys])
      | (rintro s rfl; simp [mkReq_mem])
  · simp at h

theorem c3_create_rds_mysql_instance (vpc_id subnet_id : String)
    (instance_name : Option String)
    (db_engine_version primary_zone primary_spec : String)
    (secondary_count : Int) (secondary_zone : Option String)
    (secondary_spec : String) (read_only_count : Int)
    (read_only_zone read_only_spec : String) (storage_space : Int)
    (storage_type charge_type : String) (p : Payload)
    (h : create_rds_mysql_instance vpc_id subnet_id instance_name
      db_engine_version primary_zone primary_spec secondary_count
      secondary_zone secondary_spec read_only_count read_only_zone
      read_only_spec storage_space storage_type charge_type = .ok p) :
    (instance_name = none → "instance_name" ∉ keys p) ∧
    (instance_name = some "" → "instance_name" ∉ keys p) ∧
    (∀ s, instance_name = some s → s ≠ "" →
      ("instance_name", Val.vStr s) ∈ p) := by
  simp only [create_rds_mysql_instance, Except.ok.injEq] at h
  subst h
  refine ⟨?_, ?_, ?_⟩
  · rintro rfl
    simp [keys]
  · rintro rfl
    simp [keys]
  · rintro s rfl hs
    simp [hs]

theorem c3_create_allow_list (allow_list_name : String)
    (allow_list_desc : Option String) (allow_list_type : String)
    (allow_list : Option String)
    (security_group_ids : Option (List String))
    (security_group_bind_infos : Option (List Val))
    (allow_list_category : String)
    (user_allow_list project_name : Option String) (p : Payload)
    (h : create_allow_list allow_list_name allow_list_desc
      allow_list_type allow_list security_group_ids
      security_group_bind_infos allow_list_category user_allow_list
      project_name = .ok p) :
    (allow_list_desc = none → "allow_list_desc" ∉ keys p) ∧
    (∀ s, allow_list_desc = some s →
      ("allow_list_desc", Val.vStr s) ∈ p) ∧
    (allow_list = none → "allow_list" ∉ keys p) ∧
    (∀ s, allow_list = some s → ("allow_list", Val.vStr s) ∈ p) ∧
    (user_allow_list = none → "user_allow_list" ∉ keys p) ∧
    (∀ s, user_allow_list = some s →
      ("user_allow_list", Val.vStr s) ∈ p) ∧
    (project_name = none → "project_name" ∉ keys p) ∧
    (∀ s, project_name = some s → ("project_name", Val.vStr s) ∈ p) ∧
    (security_group_ids = none → "security_group_ids" ∉ keys p) ∧
    (security_group_bind_infos = none →
      "security_group_bind_infos" ∉ keys p) := by
  simp only [create_allow_list] at h
  repeat' split at h
  any_goals simp at h
  subst h
  refine ⟨?_, ?_, ?_, ?_, ?_, ?_, ?_, ?_, ?_, ?_⟩
  all_goals
    first
    | (rintro rfl; simp [mkReq_keys])
    | (rintro s rfl; simp [mkReq_mem])

theorem c3_create_db_account
    (instance_id account_name account_password account_type : String)
    (account_desc : Option String) (host : String)
    (account_privileges : Option (List (List (String × String))))
    (dry_run : Bool) (table_column_privileges : Option (List Val))
    (p : Payload)
    (h : create_db_account instance_id account_name account_password
      account_type account_desc host account_privileges dry_run
      table_column_privileges = .ok p) :
    (account_desc = none → "account_desc" ∉ keys p) ∧
    (∀ s, account_desc = some s → ("account_desc", Val.vStr s) ∈ p) ∧
    (account_privileges = none → "account_privileges" ∉ keys p) ∧
    (table_column_privileges = none →
      "table_column_privileges" ∉ keys p) ∧
    ("dry_run", Val.vBool dry_run) ∈ p := by
  simp only [create_db_account] at h
  iterate 10 replace h := ite_error_ok h
  simp only [Except.ok.injEq] at h
  subst h
  refine ⟨?_, ?_, ?_, ?_, ?_⟩
  all_goals
    first
    | (rintro rfl; simp [mkReq_keys])
    | (rintro s rfl; simp [mkReq_mem])
    | simp [mkReq_mem]

theorem vpcIdEntries_keys (o : Option (List String)) (k : String)
    (hk : k ∈ keys (vpcIdEntries o)) : ∃ s, k = "VpcIds." ++ s := by
  cases o with
  | none => simp [vpcIdEntries, keys] at hk
  | some l =>
    simp only [vpcIdEntries, keys, List.map_map, List.mem_map] at hk
    obtain ⟨iv, -, rfl⟩ := hk
    exact ⟨toString (iv.1 + 1), rfl⟩

theorem vpcIdEntries_keys_data (o : Option (List String)) (k : String)
    (hk : k ∈ keys (vpcIdEntries o)) :
    ∃ cs, k.data =
      'V' :: 'p' :: 'c' :: 'I' :: 'd' :: 's' :: '.' :: cs := by
  obtain ⟨s, rfl⟩ := vpcIdEntries_keys o k hk
  refine ⟨s.data, ?_⟩
  rw [String.data_append]
  rfl

theorem c3_describe_vpcs (vpc_ids : Option (List String))
    (vpc_name project_name : Option String)
    (tag_filters : Option (List (String × List String)))
    (is_default : Option Bool) (vpc_owner_id : Option Int)
    (page_number page_size : Option Int) (next_token : Option String)
    (max_results : Option Int) (p : Payload)
    (h : describe_vpcs vpc_ids vpc_name project_name tag_filters
      is_default vpc_owner_id page_number page_size next_token
      max_results = .ok p) :
    (vpc_name = none → "VpcName" ∉ keys p) ∧
    (∀ s, vpc_name = some s → ("VpcName", Val.vStr s) ∈ p) ∧
    (project_name = none → "ProjectName" ∉ keys p) ∧
    (∀ s, project_name = some s → ("ProjectName", Val.vStr s) ∈ p) ∧
    (next_token = none → "NextToken" ∉ keys p) ∧
    (∀ s, next_token = some s → ("NextToken", Val.vStr s) ∈ p) ∧
    (is_default = none → "IsDefault" ∉ keys p) ∧
    (vpc_owner_id = none → "VpcOwnerId" ∉ keys p) ∧
    (page_number = none → "PageNumber" ∉ keys p) ∧
    (page_size = none → "PageSize" ∉ keys p) ∧
    (max_results = none → "MaxResults" ∉ keys p) ∧
    (vpc_ids = none → "VpcIds.1" ∉ keys p) ∧
    "tag_filters" ∉ keys p ∧ "TagFilters" ∉ keys p := by
  simp only [describe_vpcs] at h
  iterate 5 replace h := ite_error_ok h
  simp only [Except.ok.injEq] at h
  subst h
  refine ⟨?_, ?_, ?_, ?_, ?_, ?_, ?_, ?_, ?_, ?_, ?_, ?_, ?_, ?_⟩
  case _ => -- VpcName unset
    rintro rfl hmem
    rw [keys_append, List.mem_append] at hmem
    rcases hmem with hm | hm
    · rw [mkReq_keys] at hm
      obtain ⟨v, hv⟩ := hm
      simp at hv
    · obtain ⟨cs, hd⟩ := vpcIdEntries_keys_data _ _ hm
      simp at hd
  case _ => -- VpcName present
    rintro s rfl
    simp [mkReq_mem]
  case _ => -- ProjectName unset
    rintro rfl hmem
    rw [keys_append, List.mem_append] at hmem
    rcases hmem with hm | hm
    · rw [mkReq_keys] at hm
      obtain ⟨v, hv⟩ := hm
      simp at hv
    · obtain ⟨cs, hd⟩ := vpcIdEntries_keys_data _ _ hm
      simp at hd
  case _ => -- ProjectName present
    rintro s rfl
    simp [mkReq_mem]
  case _ => -- NextToken unset
    rintro rfl hmem
    rw [keys_append, List.mem_append] at hmem
    rcases hmem with hm | hm
    · rw [mkReq_keys] at hm
      obtain ⟨v, hv⟩ := hm
      simp at hv
    · obtain ⟨cs, hd⟩ := vpcIdEntries_keys_data _ _ hm
      simp at hd
  case _ => -- NextToken present
    rintro s rfl
    simp [mkReq_mem]
  case _ => -- IsDefault unset
    rintro rfl hmem
    rw [keys_append, List.mem_append] at hmem
    rcases hmem with hm | hm
    · rw [mkReq_keys] at hm
      obtain ⟨v, hv⟩ := hm
      simp at hv
    · obtain ⟨cs, hd⟩ := vpcIdEntries_keys_data _ _ hm
      simp at hd
  case _ => -- VpcOwnerId unset
    rintro rfl hmem
    rw [keys_append, List.mem_append] at hmem
    rcases hmem with hm | hm
    · rw [mkReq_keys] at hm
      obtain ⟨v, hv⟩ := hm
      simp at hv
    · obtain ⟨cs, hd⟩ := vpcIdEntries_keys_data _ _ hm
      simp at hd
  case _ => -- PageNumber unset
    rintro rfl hmem
    rw [keys_append, List.mem_append] at hmem
    rcases hmem with hm | hm
    · rw [mkReq_keys] at hm
      obtain ⟨v, hv⟩ := hm
      simp at hv
    · obtain ⟨cs, hd⟩ := vpcIdEntries_keys_data _ _ hm
      simp at hd
  case _ => -- PageSize unset
    rintro rfl hmem
    rw [keys_append, List.mem_append] at hmem
    rcases hmem with hm | hm
    · rw [mkReq_keys] at hm
      obtain ⟨v, hv⟩ := hm
      simp at hv
    · obtain ⟨cs, hd⟩ := vpcIdEntries_keys_data _ _ hm
      simp at hd
  case _ => -- MaxResults unset
    rintro rfl hmem
    rw [keys_append, List.mem_append] at hmem
    rcases hmem with hm | hm
    · rw [mkReq_keys] at hm
      obtain ⟨v, hv⟩ := hm
      simp at hv
    · obtain ⟨cs, hd⟩ := vpcIdEntries_keys_data _ _ hm
      simp at hd
  case _ => -- VpcIds.1 absent when vpc_ids unset
    rintro rfl hmem
    rw [keys_append, List.mem_append] at hmem
    rcases hmem with hm | hm
    · rw [mkReq_keys] at hm
      obtain ⟨v, hv⟩ := hm
      simp at hv
    · simp [vpcIdEntries, keys] at hm
  case _ => -- tag_filters never in the payload
    intro hmem
    rw [keys_append, List.mem_append] at hmem
    rcases hmem with hm | hm
    · rw [mkReq_keys] at hm
      obtain ⟨v, hv⟩ := hm
      simp at hv
    · obtain ⟨cs, hd⟩ := vpcIdEntries_keys_data _ _ hm
      simp at hd
  case _ => -- TagFilters never in the payload
    intro hmem
    rw [keys_append, List.mem_append] at hmem
    rcases hmem with hm | hm
    · rw [mkReq_keys] at hm
      obtain ⟨v, hv⟩ := hm
      simp at hv
    · obtain ⟨cs, hd⟩ := vpcIdEntries_keys_data _ _ hm
      simp at hd

/-- C3 counterexample: in the create-instance operation the instance
name, explicitly present with the empty-string value, is dropped from
the request payload (the handler guards it with Python truthiness
instead of an is-not-None test), so a falsy-but-present argument is
lost: the call is forwarded and the payload has no instance-name
key. -/
theorem claim_C3_cex :
    isOkWithoutKey (create_rds_mysql_instance "vpc-1" "subnet-1"
      (some "") "MySQL_8_0" "cn-beijing-a" "rds.mysql.1c2g" 1 none
      "rds.mysql.1c2g" 0 "cn-beijing-a" "rds.mysql.1c2g" 20 "LocalSSD"
      "PostPaid") "instance_name" = true := by rfl

/-- C3 (amended): for every operation, an argument left unset never
appears as a key in the constructed request payload, and an argument
explicitly present (in particular with a falsy value such as the empty
string) is kept in the payload — with the sole exception of the
create-instance operation's instance name, which is dropped whenever it
is empty (Python truthiness), and appears exactly when it is set and
non-empty.  One conjunct per operation handler, in source order; for
the handlers whose arguments are all required, the payload's key list
is pinned exactly.  `describe_vpcs` additionally never places its
validated tag-filters argument in the payload under any key. -/
theorem claim_C3 :
    (∀ (page_number page_size : Int)
    (instance_id instance_name instance_status db_engine_version
      create_time_start create_time_end zone_id charge_type
      instance_type node_spec : Option String)
    (tag_filters : Option (List (List (String × String))))
    (project_name private_network_ip_address : Option String)
    (kernel_version : Option (List String))
    (private_network_vpc_id storage_type : Option String) (p : Payload)
    (h : describe_db_instances page_number page_size instance_id
      instance_name instance_status db_engine_version create_time_start
      create_time_end zone_id charge_type instance_type node_spec
      tag_filters project_name private_network_ip_address
      kernel_version private_network_vpc_id storage_type = .ok p),
      (instance_id = none → "instance_id" ∉ keys p) ∧
    (∀ s, instance_id = some s → ("instance_id", Val.vStr s) ∈ p) ∧
    (instance_name = none → "instance_name" ∉ keys p) ∧
    (∀ s, instance_name = some s → ("instance_name", Val.vStr s) ∈ p) ∧
    (instance_status = none → "instance_status" ∉ keys p) ∧
    (∀ s, instance_status = some s →
      ("instance_status", Val.vStr s) ∈ p) ∧
    (db_engine_version = none → "db_engine_version" ∉ keys p) ∧
    (∀ s, db_engine_version = some s →
      ("db_engine_version", Val.vStr s) ∈ p) ∧
    (create_time_start = none → "create_time_start" ∉ keys p) ∧
    (∀ s, create_time_start = some s →
      ("create_time_start", Val.vStr s) ∈ p) ∧
    (create_time_end = none → "create_time_end" ∉ keys p) ∧
    (∀ s, create_time_end = some s →
      ("create_time_end", Val.vStr s) ∈ p) ∧
    (zone_id = none → "zone_id" ∉ keys p) ∧
    (∀ s, zone_id = some s → ("zone_id", Val.vStr s) ∈ p) ∧
    (charge_type = none → "charge_type" ∉ keys p) ∧
    (∀ s, charge_type = some s → ("charge_type", Val.vStr s) ∈ p) ∧
    (instance_type = none → "instance_type" ∉ keys p) ∧
    (∀ s, instance_type = some s → ("instance_type", Val.vStr s) ∈ p) ∧
    (node_spec = none → "node_spec" ∉ keys p) ∧
    (∀ s, node_spec = some s → ("node_spec", Val.vStr s) ∈ p) ∧
    (project_name = none → "project_name" ∉ keys p) ∧
    (∀ s, project_name = some s → ("project_name", Val.vStr s) ∈ p) ∧
    (private_network_ip_address = none →
      "private_network_ip_address" ∉ keys p) ∧
    (∀ s, private_network_ip_address = some s →
      ("private_network_ip_address", Val.vStr s) ∈ p) ∧
    (private_network_vpc_id = none →
      "private_network_vpc_id" ∉ keys p) ∧
    (∀ s, private_network_vpc_id = some s →
      ("private_network_vpc_id", Val.vStr s) ∈ p) ∧
    (storage_type = none → "storage_type" ∉ keys p) ∧
    (∀ s, storage_type = some s → ("storage_type", Val.vStr s) ∈ p) ∧
    (tag_filters = none → "tag_filters" ∉ keys p) ∧
    (kernel_version = none → "kernel_version" ∉ keys p)) ∧
    (∀ (instance_id : String)
    (p : Payload)
    (h : describe_db_instance_detail instance_id = .ok p),
      keys p = ["instance_id"]) ∧
    (∀ (instance_ids : List String) (p : Payload)
    (h : describe_db_instance_engine_minor_versions instance_ids =
      .ok p),
      keys p = ["instance_ids"]) ∧
    (∀ (instance_id : String)
    (account_name : Option String) (page_number page_size : Int)
    (p : Payload)
    (h : describe_db_accounts instance_id account_name page_number
      page_size = .ok p),
      (account_name = none → "account_name" ∉ keys p) ∧
    (∀ s, account_name = some s → ("account_name", Val.vStr s) ∈ p)) ∧
    (∀ (instance_id : String)
    (db_name : Option String) (page_number page_size : Int)
    (p : Payload)
    (h : describe_databases instance_id db_name page_number page_size =
      .ok p),
      (db_name = none → "db_name" ∉ keys p) ∧
    (∀ s, db_name = some s → ("db_name", Val.vStr s) ∈ p)) ∧
    (∀ (instance_id : String)
    (parameter_name node_id : Option String) (p : Payload)
    (h : describe_db_instance_parameters instance_id parameter_name
      node_id = .ok p),
      (parameter_name = none → "parameter_name" ∉ keys p) ∧
    (∀ s, parameter_name = some s → ("parameter_name", Val.vStr s) ∈ p) ∧
    (node_id = none → "node_id" ∉ keys p) ∧
    (∀ s, node_id = some s → ("node_id", Val.vStr s) ∈ p)) ∧
    (∀ (template_category : Option String)
    (template_type : String)
    (template_type_version template_source : Option String)
    (limit offset : Int) (project_name template_name : Option String)
    (p : Payload)
    (h : list_parameter_templates template_category template_type
      template_type_version template_source limit offset project_name
      template_name = .ok p),
      (template_category = none → "template_category" ∉ keys p) ∧
    (∀ s, template_category = some s →
      ("template_category", Val.vStr s) ∈ p) ∧
    (template_type_version = none → "template_type_version" ∉ keys p) ∧
    (∀ s, template_type_version = some s →
      ("template_type_version", Val.vStr s) ∈ p) ∧
    (template_source = none → "template_source" ∉ keys p) ∧
    (∀ s, template_source = some s →
      ("template_source", Val.vStr s) ∈ p) ∧
    (project_name = none → "project_name" ∉ keys p) ∧
    (∀ s, project_name = some s → ("project_name", Val.vStr s) ∈ p) ∧
    (template_name = none → "template_name" ∉ keys p) ∧
    (∀ s, template_name = some s → ("template_name", Val.vStr s) ∈ p)) ∧
    (∀ (template_id : String)
    (project_name : Option String) (p : Payload)
    (h : describe_parameter_template template_id project_name = .ok p),
      (project_name = none → "project_name" ∉ keys p) ∧
    (∀ s, project_name = some s → ("project_name", Val.vStr s) ∈ p)) ∧
    (∀ (instance_id instance_new_name :
    String) (p : Payload)
    (h : modify_db_instance_name instance_id instance_new_name =
      .ok p),
      keys p = ["instance_id", "instance_new_name"]) ∧
    (∀ (instance_id account_name :
    String) (host : String) (account_desc : Option String) (p : Payload)
    (h : modify_db_account_description instance_id account_name host
      account_desc = .ok p),
      (account_desc = none → "account_desc" ∉ keys p) ∧
    (∀ s, account_desc = some s → ("account_desc", Val.vStr s) ∈ p)) ∧
    (∀ (vpc_id subnet_id : String)
    (instance_name : Option String)
    (db_engine_version primary_zone primary_spec : String)
    (secondary_count : Int) (secondary_zone : Option String)
    (secondary_spec : String) (read_only_count : Int)
    (read_only_zone read_only_spec : String) (storage_space : Int)
    (storage_type charge_type : String) (p : Payload)
    (h : create_rds_mysql_instance vpc_id subnet_id instance_name
      db_engine_version primary_zone primary_spec secondary_count
      secondary_zone secondary_spec read_only_count read_only_zone
      read_only_spec storage_space storage_type charge_type = .ok p),
      (instance_name = none → "instance_name" ∉ keys p) ∧
    (instance_name = some "" → "instance_name" ∉ keys p) ∧
    (∀ s, instance_name = some s → s ≠ "" →
      ("instance_name", Val.vStr s) ∈ p)) ∧
    (∀ (instance_id db_name character_set_name :
    String)
    (database_privileges : Option (List (List (String × String))))
    (db_desc : Option String) (p : Payload)
    (h : create_database instance_id db_name character_set_name
      database_privileges db_desc = .ok p),
      (database_privileges = none → "database_privileges" ∉ keys p) ∧
    (db_desc = none → "db_desc" ∉ keys p) ∧
    (∀ s, db_desc = some s → ("db_desc", Val.vStr s) ∈ p)) ∧
    (∀ (allow_list_name : String)
    (allow_list_desc : Option String) (allow_list_type : String)
    (allow_list : Option String)
    (security_group_ids : Option (List String))
    (security_group_bind_infos : Option (List Val))
    (allow_list_category : String)
    (user_allow_list project_name : Option String) (p : Payload)
    (h : create_allow_list allow_list_name allow_list_desc
      allow_list_type allow_list security_group_ids
      security_group_bind_infos allow_list_category user_allow_list
      project_name = .ok p),
      (allow_list_desc = none → "allow_list_desc" ∉ keys p) ∧
    (∀ s, allow_list_desc = some s →
      ("allow_list_desc", Val.vStr s) ∈ p) ∧
    (allow_list = none → "allow_list" ∉ keys p) ∧
    (∀ s, allow_list = some s → ("allow_list", Val.vStr s) ∈ p) ∧
    (user_allow_list = none → "user_allow_list" ∉ keys p) ∧
    (∀ s, user_allow_list = some s →
      ("user_allow_list", Val.vStr s) ∈ p) ∧
    (project_name = none → "project_name" ∉ keys p) ∧
    (∀ s, project_name = some s → ("project_name", Val.vStr s) ∈ p) ∧
    (security_group_ids = none → "security_group_ids" ∉ keys p) ∧
    (security_group_bind_infos = none →
      "security_group_bind_infos" ∉ keys p)) ∧
    (∀ (instance_ids allow_list_ids :
    List String) (p : Payload)
    (h : associate_allow_list instance_ids allow_list_ids = .ok p),
      keys p = ["instance_ids", "allow_list_ids"]) ∧
    (∀ (instance_id account_name account_password account_type : String)
    (account_desc : Option String) (host : String)
    (account_privileges : Option (List (List (String × String))))
    (dry_run : Bool) (table_column_privileges : Option (List Val))
    (p : Payload)
    (h : create_db_account instance_id account_name account_password
      account_type account_desc host account_privileges dry_run
      table_column_privileges = .ok p),
      (account_desc = none → "account_desc" ∉ keys p) ∧
    (∀ s, account_desc = some s → ("account_desc", Val.vStr s) ∈ p) ∧
    (account_privileges = none → "account_privileges" ∉ keys p) ∧
    (table_column_privileges = none →
      "table_column_privileges" ∉ keys p) ∧
    ("dry_run", Val.vBool dry_run) ∈ p) ∧
    (∀ (vpc_ids : Option (List String))
    (vpc_name project_name : Option String)
    (tag_filters : Option (List (String × List String)))
    (is_default : Option Bool) (vpc_owner_id : Option Int)
    (page_number page_size : Option Int) (next_token : Option String)
    (max_results : Option Int) (p : Payload)
    (h : describe_vpcs vpc_ids vpc_name project_name tag_filters
      is_default vpc_owner_id page_number page_size next_token
      max_results = .ok p),
      (vpc_name = none → "VpcName" ∉ keys p) ∧
    (∀ s, vpc_name = some s → ("VpcName", Val.vStr s) ∈ p) ∧
    (project_name = none → "ProjectName" ∉ keys p) ∧
    (∀ s, project_name = some s → ("ProjectName", Val.vStr s) ∈ p) ∧
    (next_token = none → "NextToken" ∉ keys p) ∧
    (∀ s, next_token = some s → ("NextToken", Val.vStr s) ∈ p) ∧
    (is_default = none → "IsDefault" ∉ keys p) ∧
    (vpc_owner_id = none → "VpcOwnerId" ∉ keys p) ∧
    (page_number = none → "PageNumber" ∉ keys p) ∧
    (page_size = none → "PageSize" ∉ keys p) ∧
    (max_results = none → "MaxResults" ∉ keys p) ∧
    (vpc_ids = none → "VpcIds.1" ∉ keys p) ∧
    "tag_filters" ∉ keys p ∧ "TagFilters" ∉ keys p) := by
  exact ⟨c3_describe_db_instances, c3_describe_db_instance_detail, c3_describe_db_instance_engine_minor_versions, c3_describe_db_accounts, c3_describe_databases, c3_describe_db_instance_parameters, c3_list_parameter_templates, c3_describe_parameter_template, c3_modify_db_instance_name, c3_modify_db_account_description, c3_create_rds_mysql_instance, c3_create_database, c3_create_allow_list, c3_associate_allow_list, c3_create_db_account, c3_describe_vpcs⟩

/-- C3 witness: the list-accounts handler called with the account-name
filter unset forwards a payload without the account-name key. -/
theorem claim_C3_witness :
    "account_name" ∉ keys [("instance_id", Val.vStr "i"),
      ("page_number", Val.vInt 1), ("page_size", Val.vInt 10)] :=
  (claim_C3.2.2.2.1 "i" none 1 10
    [("instance_id", Val.vStr "i"), ("page_number", Val.vInt 1),
     ("page_size", Val.vInt 10)] rfl).1 rfl

end RdsMysql
